import Mathlib

/-!
Verification of the host-side bridge of the onion-py repository.

The Python sources under `src/src_py/onion/core/__init__.py` define the error
bridge `eval_or_throw` and the exception class `OnionRuntimeError` on top of the
native module `onion.onion` (which provides `eval` and the value class
`PyOnionObject` and is not part of the Python sources).  The bridge code is
translated here directly; the native value model and the facade are modelled
from the specification, as indicated on each definition.
-/

namespace OnionPy

/-- Modelled from the spec: the universal structured Value shared across the
host/evaluator boundary (the class `PyOnionObject` of the missing native module
`onion.onion`).  Scalar kinds null, boolean, integer, floating-point, string;
Pair (key, value); Named (identifier, value); Tuple (ordered sequence); and an
opaque callable handle compared by identity. -/
inductive Value where
  | null : Value
  | boolean (b : Bool) : Value
  | integer (n : Int) : Value
  | float (x : Float) : Value
  | string (s : String) : Value
  | pair (k v : Value) : Value
  | named (name : String) (v : Value) : Value
  | tuple (elems : List Value) : Value
  | callable (id : Nat) : Value

/-- The kind tag of a Value, used in TypeMismatch diagnostics (expected vs
actual kind). -/
def Value.kind : Value → String
  | .null => "null"
  | .boolean _ => "boolean"
  | .integer _ => "integer"
  | .float _ => "float"
  | .string _ => "string"
  | .pair _ _ => "pair"
  | .named _ _ => "named"
  | .tuple _ => "tuple"
  | .callable _ => "callable"

/-- Modelled from the spec: errors raised by the native accessors of
`PyOnionObject`: TypeMismatch carries the expected and the actual kind,
NameNotFound carries the missing field name. -/
inductive OnionError where
  | typeMismatch (expected actual : String) : OnionError
  | nameNotFound (name : String) : OnionError
  | indexOutOfRange (i : Nat) : OnionError
deriving DecidableEq

/-- Modelled from the spec: predicate `is_pair`, total, never fails. -/
def Value.is_pair : Value → Bool
  | .pair _ _ => true
  | _ => false

/-- Modelled from the spec: predicate `is_named`, total, never fails. -/
def Value.is_named : Value → Bool
  | .named _ _ => true
  | _ => false

/-- Modelled from the spec: predicate `is_tuple`, total, never fails. -/
def Value.is_tuple : Value → Bool
  | .tuple _ => true
  | _ => false

/-- Modelled from the spec: predicate `is_string`, total, never fails. -/
def Value.is_string : Value → Bool
  | .string _ => true
  | _ => false

/-- Modelled from the spec: predicate `is_integer`, total, never fails. -/
def Value.is_integer : Value → Bool
  | .integer _ => true
  | _ => false

/-- Modelled from the spec: predicate `is_boolean`, total, never fails. -/
def Value.is_boolean : Value → Bool
  | .boolean _ => true
  | _ => false

/-- Modelled from the spec: accessor `as_integer`, partial: fails with a
TypeMismatch error when the Value's variant is not integer. -/
def Value.as_integer : Value → Except OnionError Int
  | .integer n => Except.ok n
  | v => Except.error (OnionError.typeMismatch "integer" v.kind)

/-- Modelled from the spec: accessor `as_boolean`, partial: fails with a
TypeMismatch error when the Value's variant is not boolean. -/
def Value.as_boolean : Value → Except OnionError Bool
  | .boolean b => Except.ok b
  | v => Except.error (OnionError.typeMismatch "boolean" v.kind)

/-- Modelled from the spec: accessor `key`, defined on Pair (and analogously on
Named, whose identifier surfaces as a string Value); fails with TypeMismatch on
every other variant. -/
def Value.key : Value → Except OnionError Value
  | .pair k _ => Except.ok k
  | .named n _ => Except.ok (.string n)
  | v => Except.error (OnionError.typeMismatch "pair" v.kind)

/-- Modelled from the spec: accessor `value`, defined on Pair (and analogously
on Named); fails with TypeMismatch on every other variant. -/
def Value.value : Value → Except OnionError Value
  | .pair _ v => Except.ok v
  | .named _ v => Except.ok v
  | v => Except.error (OnionError.typeMismatch "pair" v.kind)

/-- Modelled from the spec: positional indexing into a Tuple, partial: fails
with TypeMismatch on every non-Tuple variant; an index past the end of the
Tuple is a failure of its own (not a TypeMismatch, since the variant supports
the operation). -/
def Value.at_index : Value → Nat → Except OnionError Value
  | .tuple elems, i =>
    match elems[i]? with
    | some x => Except.ok x
    | none => Except.error (OnionError.indexOutOfRange i)
  | v, _ => Except.error (OnionError.typeMismatch "tuple" v.kind)

/-- Modelled from the spec: name-based field access on a Tuple resolves by
scanning its Named elements for a matching identifier; an undefined name fails
with NameNotFound, and every non-Tuple variant fails with TypeMismatch. -/
def Value.get_attr : Value → String → Except OnionError Value
  | .tuple elems, nm =>
    match elems.findSome? (fun e =>
      match e with
      | .named n v => if n = nm then some v else none
      | _ => none) with
    | some v => Except.ok v
    | none => Except.error (OnionError.nameNotFound nm)
  | v, _ => Except.error (OnionError.typeMismatch "tuple" v.kind)

/-- From `src/src_py/onion/core/__init__.py`: the exception class
`OnionRuntimeError(RuntimeError)`.  Its `__init__(self, v)` forwards `v` to
`RuntimeError.__init__` — so the exception's `args` tuple is `(v,)` — and then
stores the same `v` in `self.value`. -/
structure OnionRuntimeError where
  args : List Value
  value : Value

/-- The constructor call `OnionRuntimeError(v)` as executed by `__init__`. -/
def OnionRuntimeError.mk_init (v : Value) : OnionRuntimeError :=
  { args := [v], value := v }

/-- The distinct host-level (Python) exception classes that can escape
`eval_or_throw`: an exception raised by a native accessor and propagated
unchanged; the plain `RuntimeError` built from the unresolvable result (its
message renders that result); and `OnionRuntimeError` wrapping the script's
error payload. -/
inductive HostError where
  | accessorError (e : OnionError) : HostError
  | resultShapeError (result : Value) : HostError
  | runtimeFailure (err : OnionRuntimeError) : HostError

/-- The type of the native `eval` viewed as an oracle: given the source code,
the optional working directory and the optional context, it yields the terminal
Value of the completed evaluation. -/
def EvalFn : Type :=
  String → Option String → Option (List Value) → Value

/-- Modelled from the spec: the native evaluator facade `eval` returns the
evaluator's terminal Value verbatim and does not itself interpret
success/failure.  Given the terminal Value the underlying evaluator produced,
the facade completes normally with exactly that Value. -/
def evalFacadeResult (terminal : Value) : Except HostError Value :=
  Except.ok terminal

/-- From `src/src_py/onion/core/__init__.py`, the body of `eval_or_throw` after
the `await eval(code, work_dir, context)` call, as a function of the terminal
Value `result` alone: if `result` is not a pair, raise a plain `RuntimeError`
rendering `result`; otherwise take `k = result.key()`, `v = result.value()`,
return `v` when `k.as_boolean()` holds and raise `OnionRuntimeError(v)`
otherwise.  An exception raised by a native accessor propagates unchanged. -/
def bridgeOfResult (result : Value) : Except HostError Value :=
  if !result.is_pair then
    Except.error (HostError.resultShapeError result)
  else
    match result.key with
    | Except.error e => Except.error (HostError.accessorError e)
    | Except.ok k =>
      match result.value with
      | Except.error e => Except.error (HostError.accessorError e)
      | Except.ok v =>
        match k.as_boolean with
        | Except.error e => Except.error (HostError.accessorError e)
        | Except.ok b =>
          if b then Except.ok v
          else Except.error (HostError.runtimeFailure (OnionRuntimeError.mk_init v))

/-- From `src/src_py/onion/core/__init__.py`: `eval_or_throw(code, work_dir,
context)` with the native `eval` abstracted as the oracle `evalFn`.  It awaits
`eval(code, work_dir, context)` once and then interprets the returned terminal
Value exactly as the source does. -/
def eval_or_throw (evalFn : EvalFn) (code : String) (work_dir : Option String)
    (context : Option (List Value)) : Except HostError Value :=
  let result := evalFn code work_dir context
  if !result.is_pair then
    Except.error (HostError.resultShapeError result)
  else
    match result.key with
    | Except.error e => Except.error (HostError.accessorError e)
    | Except.ok k =>
      match result.value with
      | Except.error e => Except.error (HostError.accessorError e)
      | Except.ok v =>
        match k.as_boolean with
        | Except.error e => Except.error (HostError.accessorError e)
        | Except.ok b =>
          if b then Except.ok v
          else Except.error (HostError.runtimeFailure (OnionRuntimeError.mk_init v))

/-- Modelled from the spec: the host-native scalar values whose conversion to a
Value must round-trip (null, boolean, integer, float, string). -/
inductive HostScalar where
  | hnull : HostScalar
  | hbool (b : Bool) : HostScalar
  | hint (n : Int) : HostScalar
  | hfloat (x : Float) : HostScalar
  | hstring (s : String) : HostScalar

/-- Modelled from the spec: host-to-Value conversion for scalar kinds
(`PyOnionObject` construction from a host primitive). -/
def toValue : HostScalar → Value
  | .hnull => Value.null
  | .hbool b => Value.boolean b
  | .hint n => Value.integer n
  | .hfloat x => Value.float x
  | .hstring s => Value.string s

/-- Modelled from the spec: Value-to-host conversion, defined on scalar kinds
and undefined on structured variants. -/
def toHost : Value → Option HostScalar
  | Value.null => some .hnull
  | Value.boolean b => some (.hbool b)
  | Value.integer n => some (.hint n)
  | Value.float x => some (.hfloat x)
  | Value.string s => some (.hstring s)
  | _ => none

/-- C1: for every evaluation whose terminal Value is a Pair with a falsy
boolean key, `eval_or_throw` raises `OnionRuntimeError` whose carried data is
exactly the Pair's value component, untransformed. -/
theorem eval_or_throw_falsy_raises_payload (f : EvalFn) (code : String)
    (wd : Option String) (ctx : Option (List Value)) (v : Value)
    (h : f code wd ctx = Value.pair (Value.boolean false) v) :
    eval_or_throw f code wd ctx
      = Except.error (HostError.runtimeFailure (OnionRuntimeError.mk_init v))
      ∧ (OnionRuntimeError.mk_init v).value = v := by
  constructor
  · simp [eval_or_throw, h, Value.is_pair, Value.key, Value.value, Value.as_boolean]
  · rfl

/-- Witness for C1 at a concrete falsy-pair terminal Value. -/
theorem eval_or_throw_falsy_raises_payload_witness :
    eval_or_throw (fun _ _ _ => Value.pair (Value.boolean false) (Value.string "boom"))
        "return 1;" none none
      = Except.error (HostError.runtimeFailure
          (OnionRuntimeError.mk_init (Value.string "boom")))
      ∧ (OnionRuntimeError.mk_init (Value.string "boom")).value = Value.string "boom" :=
  eval_or_throw_falsy_raises_payload
    (fun _ _ _ => Value.pair (Value.boolean false) (Value.string "boom"))
    "return 1;" none none (Value.string "boom") rfl

/-- C3: for every evaluation whose terminal Value is a Pair with a truthy
boolean key, `eval_or_throw` returns the Pair's value component directly and
raises no error. -/
theorem eval_or_throw_truthy_returns_payload (f : EvalFn) (code : String)
    (wd : Option String) (ctx : Option (List Value)) (v : Value)
    (h : f code wd ctx = Value.pair (Value.boolean true) v) :
    eval_or_throw f code wd ctx = Except.ok v := by
  simp [eval_or_throw, h, Value.is_pair, Value.key, Value.value, Value.as_boolean]

/-- Witness for C3 at a concrete truthy-pair terminal Value. -/
theorem eval_or_throw_truthy_returns_payload_witness :
    eval_or_throw (fun _ _ _ => Value.pair (Value.boolean true) (Value.integer 8))
        "return 8;" none none
      = Except.ok (Value.integer 8) :=
  eval_or_throw_truthy_returns_payload
    (fun _ _ _ => Value.pair (Value.boolean true) (Value.integer 8))
    "return 8;" none none (Value.integer 8) rfl

/-- C9: every Pair built by the factory `pair(a, b)` satisfies `is_pair`, and
its `key`/`value` accessors return the constructor arguments unchanged. -/
theorem pair_factory_accessors (a b : Value) :
    (Value.pair a b).is_pair = true
      ∧ (Value.pair a b).key = Except.ok a
      ∧ (Value.pair a b).value = Except.ok b :=
  ⟨rfl, rfl, rfl⟩

/-- C10: on a falsy-pair terminal Value, the `OnionRuntimeError` raised by
`eval_or_throw` exposes the script's error payload both through its `value`
attribute and as its message argument `args[0]`, and the two retrieval paths
yield the identical Value. -/
theorem onion_runtime_error_value_eq_args_head (f : EvalFn) (code : String)
    (wd : Option String) (ctx : Option (List Value)) (v : Value)
    (h : f code wd ctx = Value.pair (Value.boolean false) v) :
    ∃ err : OnionRuntimeError,
      eval_or_throw f code wd ctx = Except.error (HostError.runtimeFailure err)
        ∧ err.value = v
        ∧ err.args = [v]
        ∧ err.args.head? = some err.value := by
  refine ⟨OnionRuntimeError.mk_init v, ?_, rfl, rfl, rfl⟩
  simp [eval_or_throw, h, Value.is_pair, Value.key, Value.value, Value.as_boolean]

/-- Witness for C10 at a concrete falsy-pair terminal Value. -/
theorem onion_runtime_error_value_eq_args_head_witness :
    ∃ err : OnionRuntimeError,
      eval_or_throw (fun _ _ _ => Value.pair (Value.boolean false) Value.null)
          "throw null;" none none
        = Except.error (HostError.runtimeFailure err)
        ∧ err.value = Value.null
        ∧ err.args = [Value.null]
        ∧ err.args.head? = some err.value :=
  onion_runtime_error_value_eq_args_head
    (fun _ _ _ => Value.pair (Value.boolean false) Value.null)
    "throw null;" none none Value.null rfl

/-- C2: for every evaluation whose terminal Value is not a Pair,
`eval_or_throw` raises the structural error (the plain `RuntimeError` built
from the unresolvable result), and that exception's type differs from the
`OnionRuntimeError` type raised when the script explicitly threw, whatever
payload the latter carries. -/
theorem eval_or_throw_non_pair_raises_shape (f : EvalFn) (code : String)
    (wd : Option String) (ctx : Option (List Value))
    (h : (f code wd ctx).is_pair = false) :
    eval_or_throw f code wd ctx
      = Except.error (HostError.resultShapeError (f code wd ctx))
      ∧ ∀ err : OnionRuntimeError,
          HostError.resultShapeError (f code wd ctx) ≠ HostError.runtimeFailure err := by
  refine ⟨?_, fun err hc => HostError.noConfusion hc⟩
  simp [eval_or_throw, h]

/-- Witness for C2 at a concrete non-Pair terminal Value. -/
theorem eval_or_throw_non_pair_raises_shape_witness :
    eval_or_throw (fun _ _ _ => Value.integer 5) "return 5;" none none
      = Except.error (HostError.resultShapeError (Value.integer 5))
      ∧ ∀ err : OnionRuntimeError,
          HostError.resultShapeError (Value.integer 5) ≠ HostError.runtimeFailure err := by
  have h := eval_or_throw_non_pair_raises_shape (fun _ _ _ => Value.integer 5)
    "return 5;" none none rfl
  exact h

/-- C4 counterexample: at the concrete non-Pair terminal Value `integer 5`, the
facade `eval` completes normally with that Value instead of failing host-level;
the shape failure is raised only by `eval_or_throw` afterwards. -/
theorem eval_fails_on_shape_cex :
    (Value.integer 5).is_pair = false
      ∧ evalFacadeResult (Value.integer 5) = Except.ok (Value.integer 5)
      ∧ eval_or_throw (fun _ _ _ => Value.integer 5) "return 5;" none none
          = Except.error (HostError.resultShapeError (Value.integer 5)) :=
  ⟨rfl, rfl, by simp [eval_or_throw, Value.is_pair]⟩

/-- C4 amended: `eval` returns the terminal Value verbatim without failing on a
shape violation; it is `eval_or_throw`, layered on it, that raises the
structural error on every non-Pair terminal Value, and that error's exception
type differs from the script-thrown `OnionRuntimeError` type. -/
theorem eval_verbatim_bridge_checks_shape (terminal : Value) (code : String)
    (wd : Option String) (ctx : Option (List Value))
    (h : terminal.is_pair = false) :
    evalFacadeResult terminal = Except.ok terminal
      ∧ eval_or_throw (fun _ _ _ => terminal) code wd ctx
          = Except.error (HostError.resultShapeError terminal)
      ∧ ∀ err : OnionRuntimeError,
          HostError.resultShapeError terminal ≠ HostError.runtimeFailure err := by
  refine ⟨rfl, ?_, fun err hc => HostError.noConfusion hc⟩
  simp [eval_or_throw, h]

/-- Witness for the amended C4 at a concrete non-Pair terminal Value. -/
theorem eval_verbatim_bridge_checks_shape_witness :
    evalFacadeResult (Value.string "oops") = Except.ok (Value.string "oops")
      ∧ eval_or_throw (fun _ _ _ => Value.string "oops") "return 0;" none none
          = Except.error (HostError.resultShapeError (Value.string "oops"))
      ∧ ∀ err : OnionRuntimeError,
          HostError.resultShapeError (Value.string "oops") ≠ HostError.runtimeFailure err :=
  eval_verbatim_bridge_checks_shape (Value.string "oops") "return 0;" none none rfl

/-- C5: `eval_or_throw` is layered on the facade: it consults the oracle at
exactly the three arguments it was given, its outcome is computed solely from
that one returned terminal Value by the result-interpretation step
`bridgeOfResult`, and any two oracles agreeing at those arguments give the
same outcome. -/
theorem eval_or_throw_layered_on_facade (f g : EvalFn) (code : String)
    (wd : Option String) (ctx : Option (List Value))
    (h : f code wd ctx = g code wd ctx) :
    eval_or_throw f code wd ctx = bridgeOfResult (f code wd ctx)
      ∧ eval_or_throw f code wd ctx = eval_or_throw g code wd ctx := by
  constructor
  · rfl
  · simp only [eval_or_throw, h]

/-- Witness for C5 with two concrete oracles that agree at the call point. -/
theorem eval_or_throw_layered_on_facade_witness :
    eval_or_throw (fun _ _ _ => Value.pair (Value.boolean true) Value.null)
        "return null;" none none
      = bridgeOfResult (Value.pair (Value.boolean true) Value.null)
      ∧ eval_or_throw (fun _ _ _ => Value.pair (Value.boolean true) Value.null)
          "return null;" none none
        = eval_or_throw (fun code _ _ =>
            if code = "return null;" then Value.pair (Value.boolean true) Value.null
            else Value.integer 0) "return null;" none none :=
  eval_or_throw_layered_on_facade
    (fun _ _ _ => Value.pair (Value.boolean true) Value.null)
    (fun code _ _ =>
      if code = "return null;" then Value.pair (Value.boolean true) Value.null
      else Value.integer 0)
    "return null;" none none (by simp)

/-- C6: when the terminal Value is a Pair whose key is not a boolean,
`eval_or_throw` reaches `as_boolean()` on that key and the accessor's error
propagates to the caller unchanged; the raised exception is neither the
`OnionRuntimeError` nor the malformed-result plain `RuntimeError`. -/
theorem eval_or_throw_propagates_accessor_error (f : EvalFn) (code : String)
    (wd : Option String) (ctx : Option (List Value)) (k v : Value)
    (e : OnionError) (h1 : f code wd ctx = Value.pair k v)
    (h2 : k.as_boolean = Except.error e) :
    eval_or_throw f code wd ctx = Except.error (HostError.accessorError e)
      ∧ (∀ err : OnionRuntimeError,
          HostError.accessorError e ≠ HostError.runtimeFailure err)
      ∧ (∀ r : Value, HostError.accessorError e ≠ HostError.resultShapeError r) := by
  refine ⟨?_, fun err hc => HostError.noConfusion hc,
    fun r hc => HostError.noConfusion hc⟩
  simp [eval_or_throw, h1, Value.is_pair, Value.key, Value.value, h2]

/-- Witness for C6 at a concrete Pair terminal whose key is a string. -/
theorem eval_or_throw_propagates_accessor_error_witness :
    eval_or_throw (fun _ _ _ => Value.pair (Value.string "x") Value.null)
        "return 0;" none none
      = Except.error (HostError.accessorError (OnionError.typeMismatch "boolean" "string"))
      ∧ (∀ err : OnionRuntimeError,
          HostError.accessorError (OnionError.typeMismatch "boolean" "string")
            ≠ HostError.runtimeFailure err)
      ∧ (∀ r : Value,
          HostError.accessorError (OnionError.typeMismatch "boolean" "string")
            ≠ HostError.resultShapeError r) :=
  eval_or_throw_propagates_accessor_error
    (fun _ _ _ => Value.pair (Value.string "x") Value.null)
    "return 0;" none none (Value.string "x") Value.null
    (OnionError.typeMismatch "boolean" "string") rfl rfl

/-- C7: for every supported scalar kind (null, boolean, integer, float,
string), the host-to-Value conversion round-trips: converting back to a host
value recovers the original. -/
theorem scalar_round_trip (h : HostScalar) : toHost (toValue h) = some h := by
  cases h <;> rfl

/-- C8: each predicate (`is_pair`, `is_tuple`, `is_string`, `is_integer`) is a
total Boolean-valued observation that returns on every Value without failing,
while the accessors are partial: `as_integer`, `key`, `value`, and
positional/name indexing into a Tuple fail with a TypeMismatch error (carrying
the expected and actual kinds) exactly on the Values whose variant does not
support the operation — in particular, on a string Value `as_integer` fails
with TypeMismatch while `is_integer` returns false without error. -/
theorem predicates_total_accessors_mismatch (v : Value) (s : String) :
    ((v.is_pair = true ∨ v.is_pair = false)
      ∧ (v.is_tuple = true ∨ v.is_tuple = false)
      ∧ (v.is_string = true ∨ v.is_string = false)
      ∧ (v.is_integer = true ∨ v.is_integer = false))
      ∧ (v.is_integer = false
          ↔ v.as_integer = Except.error (OnionError.typeMismatch "integer" v.kind))
      ∧ ((v.is_pair = false ∧ v.is_named = false)
          ↔ v.key = Except.error (OnionError.typeMismatch "pair" v.kind))
      ∧ ((v.is_pair = false ∧ v.is_named = false)
          ↔ v.value = Except.error (OnionError.typeMismatch "pair" v.kind))
      ∧ (v.is_tuple = false
          ↔ ∀ i : Nat,
              v.at_index i = Except.error (OnionError.typeMismatch "tuple" v.kind))
      ∧ (v.is_tuple = false
          ↔ ∀ nm : String,
              v.get_attr nm = Except.error (OnionError.typeMismatch "tuple" v.kind))
      ∧ Value.is_integer (Value.string s) = false
      ∧ Value.as_integer (Value.string s)
          = Except.error (OnionError.typeMismatch "integer" "string") := by
  refine ⟨⟨Bool.eq_false_or_eq_true _, Bool.eq_false_or_eq_true _,
    Bool.eq_false_or_eq_true _, Bool.eq_false_or_eq_true _⟩,
    ?_, ?_, ?_, ?_, ?_, rfl, rfl⟩
  · cases v <;> simp [Value.is_integer, Value.as_integer, Value.kind]
  · cases v <;> simp [Value.is_pair, Value.is_named, Value.key, Value.kind]
  · cases v <;> simp [Value.is_pair, Value.is_named, Value.value, Value.kind]
  · cases v with
    | tuple elems =>
      simp only [Value.is_tuple, Bool.true_eq_false, false_iff, not_forall]
      refine ⟨0, ?_⟩
      cases h0 : elems[0]? <;> simp [Value.at_index, h0]
    | _ => simp [Value.is_tuple, Value.at_index, Value.kind]
  · cases v with
    | tuple elems =>
      simp only [Value.is_tuple, Bool.true_eq_false, false_iff, not_forall]
      refine ⟨"", ?_⟩
      cases h0 : elems.findSome? (fun e =>
        match e with
        | .named n v => if n = "" then some v else none
        | _ => none) <;> simp [Value.get_attr, h0]
    | _ => simp [Value.is_tuple, Value.get_attr, Value.kind]

end OnionPy
